import Mathlib

/-!
Shallow embedding of `speech-to-text-dropbox.py` (a drop-folder speech-to-text
pipeline) and proofs about its ingestion/drain logic.

Modelling conventions:
* Paths are `String`s; `os.path.join a b` is modelled as `a ++ "/" ++ b`.
* What the code reads from the outside world (directory listings, existence
  checks, the result of each `model.transcribe` call, whether a `shutil.move`
  raises) is supplied by an explicit environment record; the embedded function
  is then a pure function of that environment.
* `open(..., 'w')` and `f.write(...)` are modelled as always succeeding; the
  two failure sources the script itself handles or propagates are the
  transcription call and the archival move.
* String helpers (`str.lower`, `str.endswith`, `os.path.basename`,
  `os.path.splitext`, `sorted`) are re-implemented structurally on `List Char`
  so that every definition evaluates inside the kernel.  `str.lower` is
  modelled with `Char.toLower` (ASCII case folding), which agrees with Python
  on the extension strings involved here.
-/

namespace SpeechToText

/-- Lexicographic (code-point) order on character lists, mirroring Python's
`str` comparison used by `sorted`. -/
def charListLe : List Char → List Char → Bool
  | [], _ => true
  | _ :: _, [] => false
  | a :: as, b :: bs => if a < b then true else if b < a then false else charListLe as bs

/-- The ordering on `String` induced by code-point comparison of the
underlying character lists (Python's `<=` on `str`). -/
def strRel (a b : String) : Prop := charListLe a.data b.data = true

instance : DecidableRel strRel := fun _ _ => instDecidableEqBool _ _

/-- `sorted(...)` on a list of names: the unique permutation ordered by
code-point comparison (insertion sort is an executable realisation). -/
def sortStrings (l : List String) : List String := List.insertionSort strRel l

/-- Python `s.lower()` restricted to ASCII case folding. -/
def strToLower (s : String) : String := String.mk (s.data.map Char.toLower)

/-- Python `s.endswith(t)`. -/
def strEndsWith (s t : String) : Bool :=
  decide (t.data.length ≤ s.data.length) &&
    decide (s.data.drop (s.data.length - t.data.length) = t.data)

/-- `audio_extensions = ['.mp3']` from the script. -/
def audio_extensions : List String := [".mp3"]

/-- `is_audio_file(filename)`: the name, lower-cased, ends with a recognized
audio extension. -/
def is_audio_file (filename : String) : Bool :=
  audio_extensions.any (fun ext => strEndsWith (strToLower filename) ext)

/-- Helper for `osBasename`: the segment of the character list after the last
separator, accumulating the current segment. -/
def lastSegmentAux (cur : List Char) : List Char → List Char
  | [] => cur
  | c :: rest => if c = '/' then lastSegmentAux [] rest else lastSegmentAux (cur ++ [c]) rest

/-- `os.path.basename(p)`: the part of `p` after the last `/`. -/
def osBasename (p : String) : String := String.mk (lastSegmentAux [] p.data)

/-- `os.path.join(a, b)` for a relative `b`. -/
def ospJoin (a b : String) : String := a ++ "/" ++ b

/-- Index of the last occurrence of `c`, if any. -/
def lastIdxOf (c : Char) : List Char → Option Nat
  | [] => none
  | x :: rest =>
    match lastIdxOf c rest with
    | some i => some (i + 1)
    | none => if x = c then some 0 else none

/-- `os.path.splitext(p)` on a bare file name: split at the last dot, except
that dots belonging to the leading run of dots never start an extension
(so `.bashrc` has no extension). -/
def splitext (p : String) : String × String :=
  let cs := p.data
  let lead := (cs.takeWhile (· = '.')).length
  match lastIdxOf '.' cs with
  | none => (p, "")
  | some i => if lead < i then (String.mk (cs.take i), String.mk (cs.drop i)) else (p, "")

/-- `get_output_filename(input_path, output_dir)`: `<output_dir>/<base>.txt`. -/
def get_output_filename (input_path output_dir : String) : String :=
  ospJoin output_dir ((splitext (osBasename input_path)).1 ++ ".txt")

/-- Environment read by `process_audio_file`: the existence checks it makes
and the outcome of the one `model.transcribe(file_path)` call. -/
structure FileJobEnv where
  sourceExists : Bool
  outputExists : Bool
  transcribe : Except String String

/-- Observable effects of `process_audio_file`: its boolean return value,
whether the transcription capability was invoked, and the output artifact
written (path and content), if any. -/
structure FileJobResult where
  ret : Bool
  transcribeInvoked : Bool
  written : Option (String × String)
deriving DecidableEq

/-- `process_audio_file(file_path, output_dir, model)`.  Mirrors the source:
missing source → `False`; existing output artifact → `True` with no
transcription; otherwise transcribe and, on success, write the text to the
derived output path; a raised transcription error is caught and yields
`False` with nothing written. -/
def process_audio_file (file_path output_dir : String) (env : FileJobEnv) : FileJobResult :=
  if env.sourceExists = false then ⟨false, false, none⟩
  else
    let output_path := get_output_filename file_path output_dir
    if env.outputExists then ⟨true, false, none⟩
    else
      match env.transcribe with
      | .ok text => ⟨true, true, some (output_path, text)⟩
      | .error _ => ⟨false, true, none⟩

/-- Environment read by `move_to_processed`: source existence, the
`os.path.exists` oracle over candidate destinations, the timestamp taken at
move time, and whether `shutil.move` raises. -/
structure MoveEnv where
  srcExists : Bool
  destExists : String → Bool
  timestamp : String
  moveRaises : Bool

/-- Observable outcome of `move_to_processed`: whether `shutil.move` raised
(the function has no handler, so this propagates to the caller), and the
destination path the source was moved to, if any. -/
structure MoveResult where
  raised : Bool
  dest : Option String

/-- `move_to_processed(file_path, processed_dir)`.  One existence check on the
natural destination name; on a clash a timestamp suffix is inserted before the
extension.  `shutil.move` itself overwrites an existing file at the (final)
destination, so the result records only where the move was directed. -/
def move_to_processed (file_path processed_dir : String) (env : MoveEnv) : MoveResult :=
  if env.srcExists = false then ⟨false, none⟩
  else
    let filename := osBasename file_path
    let dest0 := ospJoin processed_dir filename
    let dest_path :=
      if env.destExists dest0 then
        ospJoin processed_dir
          ((splitext filename).1 ++ "_" ++ env.timestamp ++ (splitext filename).2)
      else dest0
    if env.moveRaises then ⟨true, none⟩ else ⟨false, some dest_path⟩

/-- Events of one `process_directory` run, in program order. -/
inductive DirEvent where
  | openOutput (path : String)
  | transcribeCall (path : String)
  | moveDir (src dst : String)
  | warnEmpty
  | reportProgress (done total : Nat)
deriving DecidableEq

/-- Environment read by `process_directory`: the `os.path.isdir` check, the
directory listing, the run timestamp (taken once, line 90 of the source, and
reused for the archival suffix), the transcription oracle keyed by part path,
the `os.path.exists` oracle over candidate archive destinations (the code
consults it once, on the natural name), and whether the final `shutil.move`
raises. -/
structure DirEnv where
  isDir : Bool
  listing : List String
  timestamp : String
  transcribe : String → Except String String
  processedExists : String → Bool
  moveRaises : Bool

/-- Observable outcome of `process_directory`: the event trace, the aggregate
output file left on disk (path and final content), the archive destination
the directory was moved to (if the move completed), and the
`Processed X of Y` progress report emitted by the error handler. -/
structure DirResult where
  trace : List DirEvent
  outputFile : Option (String × String)
  movedTo : Option String
  processedCount : Option (Nat × Nat)

/-- The per-part section the loop writes: header line then transcript. -/
def sectionFor (part text : String) : String :=
  "\n\n--- Chapter/Part: " ++ osBasename part ++ " ---\n\n" ++ text

/-- The transcript text produced for a part (empty for a failed part; only
used where success is known). -/
def transcriptOf (tr : String → Except String String) (p : String) : String :=
  match tr p with
  | .ok text => text
  | .error _ => ""

/-- Outcome of the part loop of `process_directory`: events, content written
to the open aggregate file, number of parts completed (`processed_files`),
and whether every part succeeded. -/
structure LoopOut where
  evs : List DirEvent
  content : String
  done : Nat
  allOk : Bool

/-- The `for i, audio_file in enumerate(audio_files)` loop body: transcribe
each part in order, appending header and text; the first raised transcription
error stops the loop (the exception propagates to the handler). -/
def dirLoop (tr : String → Except String String) : List String → String → LoopOut
  | [], acc => ⟨[], acc, 0, true⟩
  | p :: rest, acc =>
    match tr p with
    | .error _ => ⟨[.transcribeCall p], acc, 0, false⟩
    | .ok text =>
      let out := dirLoop tr rest (acc ++ sectionFor p text)
      ⟨.transcribeCall p :: out.evs, out.content, out.done + 1, out.allOk⟩

/-- The `audio_files` list of `process_directory`: sorted listing, filtered by
the audio test, each joined onto the directory path. -/
def audioParts (dir_path : String) (env : DirEnv) : List String :=
  ((sortStrings env.listing).filter is_audio_file).map (ospJoin dir_path)

/-- The unique aggregate output path `<output_dir>/<dir name>_<timestamp>.txt`. -/
def aggregateOutput (dir_path output_dir : String) (env : DirEnv) : String :=
  ospJoin output_dir (osBasename dir_path ++ "_" ++ env.timestamp ++ ".txt")

/-- The archive destination of the collection directory: the natural name, or
the natural name with the run timestamp appended when the single existence
check found it occupied (lines 126-128 of the source). -/
def archiveDest (dir_path processed_dir : String) (env : DirEnv) : String :=
  if env.processedExists (ospJoin processed_dir (osBasename dir_path)) then
    ospJoin processed_dir (osBasename dir_path) ++ "_" ++ env.timestamp
  else ospJoin processed_dir (osBasename dir_path)

/-- `process_directory(dir_path, output_dir, processed_dir, model)`.  Not a
directory → error report only.  No audio parts → warning only.  Otherwise the
aggregate file is opened (created/truncated), the parts are processed in
order, and on full success the whole directory is moved to the archive with a
single collision check; any raised error (a part's transcription, or the
move) is caught by the handler, which reports how many parts completed. -/
def process_directory (dir_path output_dir processed_dir : String) (env : DirEnv) : DirResult :=
  if env.isDir = false then ⟨[], none, none, none⟩
  else
    let audiobook_output := aggregateOutput dir_path output_dir env
    let audio_files := audioParts dir_path env
    if audio_files.isEmpty then ⟨[.warnEmpty], none, none, none⟩
    else
      let out := dirLoop env.transcribe audio_files ""
      if out.allOk then
        let processed_path := archiveDest dir_path processed_dir env
        if env.moveRaises then
          ⟨.openOutput audiobook_output :: out.evs
              ++ [.moveDir dir_path processed_path, .reportProgress out.done audio_files.length],
            some (audiobook_output, out.content), none, some (out.done, audio_files.length)⟩
        else
          ⟨.openOutput audiobook_output :: out.evs ++ [.moveDir dir_path processed_path],
            some (audiobook_output, out.content), some processed_path, none⟩
      else
        ⟨.openOutput audiobook_output :: out.evs
            ++ [.reportProgress out.done audio_files.length],
          some (audiobook_output, out.content), none, some (out.done, audio_files.length)⟩

/-- Environment read by `process_dropbox`: drop-location existence, whether
the `whisper` module imports, the drop-location listing, the directory test
per item, and the sub-environments each dispatched job reads.  The
`whisper.load_model` call is modelled as succeeding. -/
structure BoxEnv where
  dropboxExists : Bool
  importOk : Bool
  items : List String
  isDirItem : String → Bool
  dirEnv : String → DirEnv
  fileEnv : String → FileJobEnv
  moveEnv : String → MoveEnv

/-- What happened to one drop-location entry: dispatched as a collection,
as a single audio file (with the archival move result when the processor
reported success), or skipped as unsupported. -/
inductive ItemStep where
  | dir (r : DirResult)
  | audio (r : FileJobResult) (mv : Option MoveResult)
  | unsupported

/-- The loop body of `process_dropbox` for one entry. -/
def processItem (dropbox_dir output_dir processed_dir : String) (env : BoxEnv)
    (item : String) : ItemStep :=
  let item_path := ospJoin dropbox_dir item
  if env.isDirItem item then
    .dir (process_directory item_path output_dir processed_dir (env.dirEnv item))
  else if is_audio_file item then
    let r := process_audio_file item_path output_dir (env.fileEnv item)
    if r.ret then .audio r (some (move_to_processed item_path processed_dir (env.moveEnv item)))
    else .audio r none
  else .unsupported

/-- Whether a step raised an exception that escapes the loop body: the only
unhandled raise is `shutil.move` inside `move_to_processed` (the surrounding
`try` catches only `ImportError`). -/
def stepRaises : ItemStep → Bool
  | .audio _ (some mv) => mv.raised
  | _ => false

/-- Run the `for item in items` loop: each entry is processed in listing
order until (and including) the first step whose exception propagates. -/
def runItems (dropbox_dir output_dir processed_dir : String) (env : BoxEnv) :
    List String → List (String × ItemStep) × Bool
  | [] => ([], false)
  | item :: rest =>
    let s := processItem dropbox_dir output_dir processed_dir env item
    if stepRaises s then ([(item, s)], true)
    else
      let r := runItems dropbox_dir output_dir processed_dir env rest
      ((item, s) :: r.1, r.2)

/-- How one invocation of the script terminates. -/
inductive RunOutcome where
  | normal
  | importExit
  | uncaught
deriving DecidableEq

/-- Result of one `process_dropbox` run: the per-entry steps that executed
and how the process terminated. -/
structure BoxResult where
  steps : List (String × ItemStep)
  outcome : RunOutcome

/-- `process_dropbox(dropbox_dir, output_dir, processed_dir, model_name)`.
Missing drop location → plain return.  `import whisper` failure →
`sys.exit(1)`.  Empty listing → plain return.  Otherwise the loop runs; an
exception escaping a loop body (a single-file archival-move failure) is not
caught by the `except ImportError` handler and propagates out of `main`. -/
def process_dropbox (dropbox_dir output_dir processed_dir : String) (env : BoxEnv) : BoxResult :=
  if env.dropboxExists = false then ⟨[], .normal⟩
  else if env.importOk = false then ⟨[], .importExit⟩
  else if env.items.isEmpty then ⟨[], .normal⟩
  else
    let r := runItems dropbox_dir output_dir processed_dir env env.items
    ⟨r.1, if r.2 then .uncaught else .normal⟩

/-- Process exit status: 0 on a normal return, 1 for the explicit
`sys.exit(1)` on `ImportError`, 1 for an unhandled exception (the Python
interpreter's exit status for an uncaught exception). -/
def exitCode (r : BoxResult) : Nat :=
  match r.outcome with
  | .normal => 0
  | .importExit => 1
  | .uncaught => 1

/-- The part paths whose transcription was attempted, read off a trace. -/
def transcribeCalls (tr : List DirEvent) : List String :=
  tr.filterMap fun e =>
    match e with
    | .transcribeCall p => some p
    | _ => none

/-- Reference concatenation of per-part sections, in list order. -/
def sectionConcat (tr : String → Except String String) : List String → String
  | [] => ""
  | p :: rest => sectionFor p (transcriptOf tr p) ++ sectionConcat tr rest

/-- Transcription oracle for a three-part collection whose part `b.mp3`
fails. -/
def trFailB : String → Except String String := fun p =>
  if p = "dropbox/book/a.mp3" then .ok "alpha"
  else if p = "dropbox/book/b.mp3" then .error "bad audio"
  else .ok "gamma"

/-- Two-part collection, listed out of order, every part transcribing fine,
archival succeeding. -/
def dirEnvOk : DirEnv :=
  ⟨true, ["b.mp3", "a.mp3"], "20240101_000000", fun _ => .ok "T", fun _ => false, false⟩

/-- One-part collection whose part transcribes fine but whose archival move
raises. -/
def dirEnvMoveFail : DirEnv :=
  ⟨true, ["a.mp3"], "20240101_000000", fun _ => .ok "T", fun _ => false, true⟩

/-- Three-part collection (listed out of order) whose part `b.mp3` fails. -/
def dirEnvPartFail : DirEnv :=
  ⟨true, ["c.mp3", "a.mp3", "b.mp3"], "20240101_000000", trFailB, fun _ => false, false⟩

/-- Two-part collection whose very first part fails. -/
def dirEnvFirstFail : DirEnv :=
  ⟨true, ["a.mp3", "b.mp3"], "20240101_000000", fun _ => .error "boom", fun _ => false, false⟩

/-- Directory containing no recognized audio file. -/
def dirEnvEmpty : DirEnv :=
  ⟨true, ["notes.txt"], "20240101_000000", fun _ => .error "never", fun _ => false, false⟩

/-- One-part collection, all parts fine, whose natural archive name
`processed/book` is already occupied while the timestamp-suffixed name is
free. -/
def dirEnvArchNatTaken : DirEnv :=
  ⟨true, ["a.mp3"], "20240101_000000", fun _ => .ok "T",
    fun p => p == "processed/book", false⟩

/-- Placeholder collection environment for runs that dispatch no directory. -/
def dirEnvUnused : DirEnv :=
  ⟨false, [], "20240101_000000", fun _ => .error "unused", fun _ => false, false⟩

/-- Run with two single audio files in which the first file transcribes fine
but its archival move raises. -/
def boxEnvMoveFail : BoxEnv :=
  ⟨true, true, ["a.mp3", "b.mp3"], fun _ => false, fun _ => dirEnvUnused,
    fun _ => ⟨true, false, .ok "T"⟩,
    fun _ => ⟨true, fun _ => false, "20240101_000000", true⟩⟩

/-- Run with a failing audio file, an unsupported file and a collection whose
part fails: item failures everywhere, but no archival move raises. -/
def boxEnvItemFailures : BoxEnv :=
  ⟨true, true, ["a.mp3", "pic.jpg", "book"],
    fun it => it = "book",
    fun _ => ⟨true, ["p1.mp3"], "20240101_000000", fun _ => .error "bad part", fun _ => false, false⟩,
    fun _ => ⟨true, false, .error "bad audio"⟩,
    fun _ => ⟨true, fun _ => false, "20240101_000000", false⟩⟩

/-- Run with `whisper` importable, one single audio file transcribing fine,
and its archival move raising. -/
def boxEnvExitOnMove : BoxEnv :=
  ⟨true, true, ["talk.mp3"], fun _ => false, fun _ => dirEnvUnused,
    fun _ => ⟨true, false, .ok "T"⟩,
    fun _ => ⟨true, fun _ => false, "20240101_000000", true⟩⟩

/-- Run whose only item is a single audio file whose output artifact already
exists; the transcription oracle is an error to certify it is never
consulted. -/
def boxEnvAlreadyDone : BoxEnv :=
  ⟨true, true, ["talk.mp3"], fun _ => false, fun _ => dirEnvUnused,
    fun _ => ⟨true, true, .error "whisper should not run"⟩,
    fun _ => ⟨true, fun _ => false, "20240101_000000", false⟩⟩

/-- Run whose only item is a single audio file whose transcription fails. -/
def boxEnvTranscribeFail : BoxEnv :=
  ⟨true, true, ["talk.mp3"], fun _ => false, fun _ => dirEnvUnused,
    fun _ => ⟨true, false, .error "unreadable audio"⟩,
    fun _ => ⟨true, fun _ => false, "20240101_000000", false⟩⟩

/-- Archive state in which both `talk.mp3` and its timestamp-suffixed variant
already exist. -/
def moveEnvBothTaken : MoveEnv :=
  ⟨true,
    fun p => (p == "processed/talk.mp3") || (p == "processed/talk_20240101_000000.mp3"),
    "20240101_000000", false⟩

/-- Archive state in which `talk.mp3` exists but the timestamp-suffixed name
is free. -/
def moveEnvNaturalTaken : MoveEnv :=
  ⟨true, fun p => p == "processed/talk.mp3", "20240101_000000", false⟩

theorem charListLe_total (as bs : List Char) :
    charListLe as bs = true ∨ charListLe bs as = true := by
  induction as generalizing bs with
  | nil => left; rfl
  | cons a as ih =>
    cases bs with
    | nil => right; rfl
    | cons b bs =>
      by_cases hab : a < b
      · left; simp [charListLe, hab]
      · by_cases hba : b < a
        · right; simp [charListLe, hba]
        · rcases ih bs with h | h
          · left; simp [charListLe, hab, hba, h]
          · right; simp [charListLe, hab, hba, h]

theorem charListLe_trans (as bs cs : List Char) (h1 : charListLe as bs = true)
    (h2 : charListLe bs cs = true) : charListLe as cs = true := by
  induction as generalizing bs cs with
  | nil => rfl
  | cons a as ih =>
    cases bs with
    | nil => simp [charListLe] at h1
    | cons b bs =>
      cases cs with
      | nil => simp [charListLe] at h2
      | cons c cs =>
        by_cases hab : a < b
        · by_cases hbc : b < c
          · simp [charListLe, lt_trans hab hbc]
          · by_cases hcb : c < b
            · simp [charListLe, hbc, hcb] at h2
            · have hbceq : b = c := le_antisymm (le_of_not_lt hcb) (le_of_not_lt hbc)
              subst hbceq
              simp [charListLe, hab]
        · by_cases hba : b < a
          · simp [charListLe, hab, hba] at h1
          · have habeq : a = b := le_antisymm (le_of_not_lt hba) (le_of_not_lt hab)
            subst habeq
            simp [charListLe, lt_irrefl] at h1
            by_cases hac : a < c
            · simp [charListLe, hac]
            · by_cases hca : c < a
              · simp [charListLe, hac, hca] at h2
              · simp [charListLe, hac, hca] at h2 ⊢
                exact ih bs cs h1 h2

theorem charListLe_antisymm (as bs : List Char) (h1 : charListLe as bs = true)
    (h2 : charListLe bs as = true) : as = bs := by
  induction as generalizing bs with
  | nil =>
    cases bs with
    | nil => rfl
    | cons b bs => simp [charListLe] at h2
  | cons a as ih =>
    cases bs with
    | nil => simp [charListLe] at h1
    | cons b bs =>
      by_cases hab : a < b
      · simp [charListLe, hab, lt_asymm hab] at h2
      · by_cases hba : b < a
        · simp [charListLe, hab, hba] at h1
        · have habeq : a = b := le_antisymm (le_of_not_lt hba) (le_of_not_lt hab)
          subst habeq
          simp [charListLe, lt_irrefl] at h1 h2
          rw [ih bs h1 h2]

theorem string_data_inj {a b : String} (h : a.data = b.data) : a = b := by
  cases a
  cases b
  exact congrArg String.mk h

instance : IsTotal String strRel := ⟨fun a b => charListLe_total a.data b.data⟩

instance : IsTrans String strRel := ⟨fun a b c => charListLe_trans a.data b.data c.data⟩

instance : IsAntisymm String strRel :=
  ⟨fun a b h1 h2 => string_data_inj (charListLe_antisymm a.data b.data h1 h2)⟩

/-- Sorting is determined by the multiset of names: permuted listings sort to
the same list. -/
theorem sortStrings_eq_of_perm {l₁ l₂ : List String} (h : l₁.Perm l₂) :
    sortStrings l₁ = sortStrings l₂ :=
  List.eq_of_perm_of_sorted
    (((List.perm_insertionSort strRel l₁).trans h).trans
      (List.perm_insertionSort strRel l₂).symm)
    (List.sorted_insertionSort strRel l₁) (List.sorted_insertionSort strRel l₂)

theorem except_isOk_ok {e : Except String String} (h : e.isOk = true) :
    ∃ t, e = .ok t := by
  cases e with
  | ok t => exact ⟨t, rfl⟩
  | error m => simp [Except.isOk, Except.toBool] at h

theorem except_isOk_error {e : Except String String} (h : e.isOk = false) :
    ∃ m, e = .error m := by
  cases e with
  | ok t => simp [Except.isOk, Except.toBool] at h
  | error m => exact ⟨m, rfl⟩

/-- The part loop on an all-successful list: every part is attempted in
order, the sections accumulate in order, all parts are counted. -/
theorem dirLoop_all_ok (tr : String → Except String String) (parts : List String)
    (acc : String) (h : ∀ p ∈ parts, (tr p).isOk = true) :
    dirLoop tr parts acc =
      ⟨parts.map DirEvent.transcribeCall, acc ++ sectionConcat tr parts, parts.length, true⟩ := by
  induction parts generalizing acc with
  | nil => simp [dirLoop, sectionConcat, String.append_empty]
  | cons p rest ih =>
    obtain ⟨t, ht⟩ := except_isOk_ok (h p (by simp))
    have hrest : ∀ q ∈ rest, (tr q).isOk = true := fun q hq => h q (by simp [hq])
    simp only [dirLoop, ht, ih (acc ++ sectionFor p t) hrest, sectionConcat, transcriptOf,
      List.map_cons, List.length_cons, String.append_assoc]

/-- The part loop when the part after `pre` fails: exactly `pre ++ [bad]` is
attempted, the content is the sections of `pre`, the count is `pre.length`,
and the loop reports failure. -/
theorem dirLoop_fails (tr : String → Except String String) (pre : List String)
    (bad : String) (post : List String) (acc : String)
    (hpre : ∀ p ∈ pre, (tr p).isOk = true) (hbad : (tr bad).isOk = false) :
    dirLoop tr (pre ++ bad :: post) acc =
      ⟨(pre ++ [bad]).map DirEvent.transcribeCall, acc ++ sectionConcat tr pre,
        pre.length, false⟩ := by
  induction pre generalizing acc with
  | nil =>
    obtain ⟨m, hm⟩ := except_isOk_error hbad
    simp [dirLoop, hm, sectionConcat, String.append_empty]
  | cons p pre ih =>
    obtain ⟨t, ht⟩ := except_isOk_ok (hpre p (by simp))
    have hpre' : ∀ q ∈ pre, (tr q).isOk = true := fun q hq => hpre q (by simp [hq])
    simp only [List.cons_append, dirLoop, ht, List.append_eq]
    rw [ih (acc ++ sectionFor p t) hpre']
    simp [sectionConcat, transcriptOf, ht, String.append_assoc]

/-- A list on which a boolean test is not always true splits at the first
failing element. -/
theorem first_failure_split (f : String → Bool) (l : List String)
    (h : ¬ ∀ p ∈ l, f p = true) :
    ∃ pre bad post, l = pre ++ bad :: post ∧ (∀ p ∈ pre, f p = true) ∧ f bad = false := by
  induction l with
  | nil => exact absurd (by simp) h
  | cons x xs ih =>
    by_cases hx : f x = true
    · have h' : ¬ ∀ p ∈ xs, f p = true := by
        intro hall
        exact h fun p hp => by
          rcases List.mem_cons.mp hp with hpx | hpxs
          · rw [hpx]; exact hx
          · exact hall p hpxs
      obtain ⟨pre, bad, post, hl, hpre, hbad⟩ := ih h'
      refine ⟨x :: pre, bad, post, by rw [hl, List.cons_append], ?_, hbad⟩
      intro p hp
      rcases List.mem_cons.mp hp with hpx | hpp
      · rw [hpx]; exact hx
      · exact hpre p hpp
    · exact ⟨[], x, xs, rfl, by simp, by simpa using hx⟩

/-- Unfolding of `process_directory` when every part succeeds and the
archival move completes. -/
theorem process_directory_all_ok_moved (dir out proc : String) (env : DirEnv)
    (h1 : env.isDir = true) (h2 : audioParts dir env ≠ [])
    (h3 : ∀ q ∈ audioParts dir env, (env.transcribe q).isOk = true)
    (h4 : env.moveRaises = false) :
    process_directory dir out proc env =
      ⟨.openOutput (aggregateOutput dir out env)
          :: (audioParts dir env).map DirEvent.transcribeCall
          ++ [.moveDir dir (archiveDest dir proc env)],
        some (aggregateOutput dir out env,
          sectionConcat env.transcribe (audioParts dir env)),
        some (archiveDest dir proc env), none⟩ := by
  have he : (audioParts dir env).isEmpty = false := List.isEmpty_eq_false.mpr h2
  simp only [process_directory, h1, he,
    dirLoop_all_ok env.transcribe (audioParts dir env) "" h3, h4, String.empty_append]
  simp

/-- Unfolding of `process_directory` when every part succeeds but the
archival move raises: the handler reports, nothing is archived. -/
theorem process_directory_all_ok_move_raises (dir out proc : String) (env : DirEnv)
    (h1 : env.isDir = true) (h2 : audioParts dir env ≠ [])
    (h3 : ∀ q ∈ audioParts dir env, (env.transcribe q).isOk = true)
    (h4 : env.moveRaises = true) :
    process_directory dir out proc env =
      ⟨.openOutput (aggregateOutput dir out env)
          :: (audioParts dir env).map DirEvent.transcribeCall
          ++ [.moveDir dir (archiveDest dir proc env),
            .reportProgress (audioParts dir env).length (audioParts dir env).length],
        some (aggregateOutput dir out env,
          sectionConcat env.transcribe (audioParts dir env)),
        none, some ((audioParts dir env).length, (audioParts dir env).length)⟩ := by
  have he : (audioParts dir env).isEmpty = false := List.isEmpty_eq_false.mpr h2
  simp only [process_directory, h1, he,
    dirLoop_all_ok env.transcribe (audioParts dir env) "" h3, h4, String.empty_append]
  simp

/-- Unfolding of `process_directory` when the part after `pre` fails. -/
theorem process_directory_part_fails (dir out proc : String) (env : DirEnv)
    (h1 : env.isDir = true) (pre : List String) (bad : String) (post : List String)
    (h2 : audioParts dir env = pre ++ bad :: post)
    (h3 : ∀ q ∈ pre, (env.transcribe q).isOk = true)
    (h4 : (env.transcribe bad).isOk = false) :
    process_directory dir out proc env =
      ⟨.openOutput (aggregateOutput dir out env)
          :: (pre ++ [bad]).map DirEvent.transcribeCall
          ++ [.reportProgress pre.length (pre ++ bad :: post).length],
        some (aggregateOutput dir out env, sectionConcat env.transcribe pre),
        none, some (pre.length, (pre ++ bad :: post).length)⟩ := by
  have he : (audioParts dir env).isEmpty = false := by rw [h2]; simp
  simp only [process_directory, h1, he, h2,
    dirLoop_fails env.transcribe pre bad post "" h3 h4, String.empty_append]
  simp

/-- Reading the attempted parts off a failure-branch trace recovers exactly
the part list. -/
theorem transcribeCalls_spine (l : List String) (done total : Nat) (pth : String) :
    transcribeCalls (DirEvent.openOutput pth :: l.map DirEvent.transcribeCall
      ++ [DirEvent.reportProgress done total]) = l := by
  induction l with
  | nil => rfl
  | cons x xs ih =>
    simpa [transcribeCalls, List.filterMap_cons] using ih

/-- Claim C9: a directory with zero entries passing the audio-file test yields only
a warning: no aggregate output file is created and no archival move occurs. -/
theorem claim_C9_empty_collection (dir out proc : String) (env : DirEnv)
    (h1 : env.isDir = true) (h2 : audioParts dir env = []) :
    process_directory dir out proc env = ⟨[.warnEmpty], none, none, none⟩ := by
  simp [process_directory, h1, h2]

/-- Witness for C9 at a directory whose listing holds no audio file. -/
theorem claim_C9_witness :
    process_directory "dropbox/book" "output" "processed" dirEnvEmpty =
      ⟨[.warnEmpty], none, none, none⟩ :=
  claim_C9_empty_collection "dropbox/book" "output" "processed" dirEnvEmpty
    (by decide) (by decide)

/-- Claim C1 counterexample: a one-part collection whose sole part transcribes
without error but whose archival `shutil.move` raises is not moved to the
archive, so archival is not equivalent to full transcription success. -/
theorem claim_C1_counterexample :
    (process_directory "dropbox/book" "output" "processed" dirEnvMoveFail).movedTo = none
    ∧ audioParts "dropbox/book" dirEnvMoveFail = ["dropbox/book/a.mp3"]
    ∧ (dirEnvMoveFail.transcribe "dropbox/book/a.mp3").isOk = true
    ∧ dirEnvMoveFail.isDir = true := by
  decide

/-- Claim C1, amended: a non-empty collection directory is archived iff every part
transcribed without error in that run and the archival move itself
completed; any part failure (including the first) leaves the directory in
the drop location. -/
theorem claim_C1_all_or_nothing_amended (dir out proc : String) (env : DirEnv)
    (h1 : env.isDir = true) (h2 : audioParts dir env ≠ []) :
    (process_directory dir out proc env).movedTo ≠ none ↔
      ((∀ q ∈ audioParts dir env, (env.transcribe q).isOk = true)
        ∧ env.moveRaises = false) := by
  by_cases hall : ∀ q ∈ audioParts dir env, (env.transcribe q).isOk = true
  · cases hmv : env.moveRaises with
    | false =>
      rw [process_directory_all_ok_moved dir out proc env h1 h2 hall hmv]
      simpa using hall
    | true =>
      rw [process_directory_all_ok_move_raises dir out proc env h1 h2 hall hmv]
      simp [hall]
  · obtain ⟨pre, bad, post, hsplit, hpre, hbad⟩ :=
      first_failure_split (fun q => (env.transcribe q).isOk) (audioParts dir env) hall
    rw [process_directory_part_fails dir out proc env h1 pre bad post hsplit hpre hbad]
    simp [hall]

/-- Witness for the amended C1 at an all-successful two-part collection. -/
theorem claim_C1_witness :
    (process_directory "dropbox/book" "output" "processed" dirEnvOk).movedTo ≠ none ↔
      ((∀ q ∈ audioParts "dropbox/book" dirEnvOk, (dirEnvOk.transcribe q).isOk = true)
        ∧ dirEnvOk.moveRaises = false) :=
  claim_C1_all_or_nothing_amended "dropbox/book" "output" "processed" dirEnvOk
    (by decide) (by decide)

/-- Claim C5: when every part of a non-empty collection transcribes successfully,
the aggregate output is the concatenation, over the parts in sorted order, of
the section marker followed by that part's transcript, with no trailing
structure; and the output is unchanged under any permutation of the
filesystem listing. -/
theorem claim_C5_aggregate_content (dir out proc : String) (env : DirEnv)
    (h1 : env.isDir = true) (h2 : audioParts dir env ≠ [])
    (h3 : ∀ q ∈ audioParts dir env, (env.transcribe q).isOk = true) :
    (process_directory dir out proc env).outputFile =
      some (aggregateOutput dir out env,
        sectionConcat env.transcribe (audioParts dir env))
    ∧ ∀ l', l'.Perm env.listing →
        (process_directory dir out proc { env with listing := l' }).outputFile =
          (process_directory dir out proc env).outputFile := by
  constructor
  · cases hmv : env.moveRaises with
    | false => rw [process_directory_all_ok_moved dir out proc env h1 h2 h3 hmv]
    | true => rw [process_directory_all_ok_move_raises dir out proc env h1 h2 h3 hmv]
  · intro l' hperm
    have hparts : audioParts dir { env with listing := l' } = audioParts dir env := by
      unfold audioParts
      rw [sortStrings_eq_of_perm hperm]
    simp only [process_directory, hparts]
    rfl

/-- Witness for C5 at a two-part collection listed out of order. -/
theorem claim_C5_witness :
    (process_directory "dropbox/book" "output" "processed" dirEnvOk).outputFile =
      some (aggregateOutput "dropbox/book" "output" dirEnvOk,
        sectionConcat dirEnvOk.transcribe (audioParts "dropbox/book" dirEnvOk)) :=
  (claim_C5_aggregate_content "dropbox/book" "output" "processed" dirEnvOk
    (by decide) (by decide) (by decide)).1

/-- Claim C6: when the part after `pre` fails, exactly `pre ++ [bad]` is attempted
(nothing later), the aggregate file keeps the sections already written for
`pre`, the directory is not archived, and the reported count is
`pre.length` of the total. -/
theorem claim_C6_partial_failure (dir out proc : String) (env : DirEnv)
    (h1 : env.isDir = true) (pre : List String) (bad : String) (post : List String)
    (h2 : audioParts dir env = pre ++ bad :: post)
    (h3 : ∀ q ∈ pre, (env.transcribe q).isOk = true)
    (h4 : (env.transcribe bad).isOk = false) :
    transcribeCalls (process_directory dir out proc env).trace = pre ++ [bad]
    ∧ (process_directory dir out proc env).outputFile =
        some (aggregateOutput dir out env, sectionConcat env.transcribe pre)
    ∧ (process_directory dir out proc env).movedTo = none
    ∧ (process_directory dir out proc env).processedCount =
        some (pre.length, (audioParts dir env).length) := by
  rw [process_directory_part_fails dir out proc env h1 pre bad post h2 h3 h4, h2]
  refine ⟨?_, rfl, rfl, rfl⟩
  exact transcribeCalls_spine (pre ++ [bad]) pre.length (pre ++ bad :: post).length
    (aggregateOutput dir out env)

/-- Witness for C6: a three-part collection whose middle part fails. -/
theorem claim_C6_witness :
    transcribeCalls
        (process_directory "dropbox/book" "output" "processed" dirEnvPartFail).trace =
      ["dropbox/book/a.mp3"] ++ ["dropbox/book/b.mp3"]
    ∧ (process_directory "dropbox/book" "output" "processed" dirEnvPartFail).outputFile =
        some (aggregateOutput "dropbox/book" "output" dirEnvPartFail,
          sectionConcat dirEnvPartFail.transcribe ["dropbox/book/a.mp3"])
    ∧ (process_directory "dropbox/book" "output" "processed" dirEnvPartFail).movedTo = none
    ∧ (process_directory "dropbox/book" "output" "processed" dirEnvPartFail).processedCount =
        some ((["dropbox/book/a.mp3"] : List String).length,
          (audioParts "dropbox/book" dirEnvPartFail).length) :=
  claim_C6_partial_failure "dropbox/book" "output" "processed" dirEnvPartFail (by decide)
    ["dropbox/book/a.mp3"] "dropbox/book/b.mp3" ["dropbox/book/c.mp3"]
    (by decide) (by decide) (by decide)

/-- Claim C10: for a non-empty collection the aggregate output file is opened
(created, truncating) before any part's transcription is attempted, and if
the first part fails the file is left on disk with zero sections. -/
theorem claim_C10_output_created_first (dir out proc : String) (env : DirEnv)
    (h1 : env.isDir = true) (p : String) (ps : List String)
    (h2 : audioParts dir env = p :: ps) :
    (process_directory dir out proc env).trace.head? =
      some (.openOutput (aggregateOutput dir out env))
    ∧ ((env.transcribe p).isOk = false →
        (process_directory dir out proc env).outputFile =
          some (aggregateOutput dir out env, "")) := by
  have h2' : audioParts dir env ≠ [] := by simp [h2]
  constructor
  · by_cases hall : ∀ q ∈ audioParts dir env, (env.transcribe q).isOk = true
    · cases hmv : env.moveRaises with
      | false =>
        rw [process_directory_all_ok_moved dir out proc env h1 h2' hall hmv]
        rfl
      | true =>
        rw [process_directory_all_ok_move_raises dir out proc env h1 h2' hall hmv]
        rfl
    · obtain ⟨pre, bad, post, hsplit, hpre, hbad⟩ :=
        first_failure_split (fun q => (env.transcribe q).isOk) (audioParts dir env) hall
      rw [process_directory_part_fails dir out proc env h1 pre bad post hsplit hpre hbad]
      rfl
  · intro hp
    rw [process_directory_part_fails dir out proc env h1 [] p ps h2 (by simp) hp]
    rfl

/-- Witness for C10: a two-part collection whose first part fails still has
its (empty) aggregate file opened first and left on disk. -/
theorem claim_C10_witness :
    (process_directory "dropbox/book" "output" "processed" dirEnvFirstFail).trace.head? =
      some (.openOutput (aggregateOutput "dropbox/book" "output" dirEnvFirstFail))
    ∧ ((dirEnvFirstFail.transcribe "dropbox/book/a.mp3").isOk = false →
        (process_directory "dropbox/book" "output" "processed" dirEnvFirstFail).outputFile =
          some (aggregateOutput "dropbox/book" "output" dirEnvFirstFail, "")) :=
  claim_C10_output_created_first "dropbox/book" "output" "processed" dirEnvFirstFail
    (by decide) "dropbox/book/a.mp3" ["dropbox/book/b.mp3"] (by decide)

/-- Claim C3 counterexample, on the single-file archival path: when both the
natural archive name and the timestamp-suffixed name are occupied, the move
is still directed at the occupied suffixed path (the code checks existence
only once), and `shutil.move` of a file onto an existing file overwrites it —
refuting the parenthetical of the original claim. -/
theorem claim_C3_counterexample :
    (move_to_processed "dropbox/talk.mp3" "processed" moveEnvBothTaken).dest =
      some "processed/talk_20240101_000000.mp3"
    ∧ moveEnvBothTaken.destExists "processed/talk_20240101_000000.mp3" = true
    ∧ moveEnvBothTaken.destExists "processed/talk.mp3" = true := by
  decide

/-- Whatever the run does, a collection directory is only ever moved to the
destination computed by the single collision check of lines 126-128. -/
theorem process_directory_movedTo_cases (dir out proc : String) (env : DirEnv) :
    (process_directory dir out proc env).movedTo = none ∨
      (process_directory dir out proc env).movedTo = some (archiveDest dir proc env) := by
  cases hdir : env.isDir with
  | false => left; simp [process_directory, hdir]
  | true =>
    cases hemp : (audioParts dir env).isEmpty with
    | true => left; simp [process_directory, hdir, hemp]
    | false =>
      cases hok : (dirLoop env.transcribe (audioParts dir env) "").allOk with
      | false => left; simp [process_directory, hdir, hemp, hok]
      | true =>
        cases hmv : env.moveRaises with
        | true => left; simp [process_directory, hdir, hemp, hok, hmv]
        | false => right; simp [process_directory, hdir, hemp, hok, hmv]

/-- Claim C3, amended: for the archival move of a single file and of a whole
collection directory alike, if the natural destination name is occupied a
timestamp suffix is appended, and the move target is an unoccupied path — so
nothing existing is disturbed — provided the timestamp-suffixed name is
itself free.  Because existence is checked only once, a suffixed name that is
also occupied becomes the move target anyway: `shutil.move` then overwrites
it for a single file, and for a directory nests the source inside the
existing directory or fails, instead of producing a fresh name. -/
theorem claim_C3_collision_safety_amended (fp pd : String) (env : MoveEnv)
    (dir out proc : String) (denv : DirEnv)
    (h : env.destExists (ospJoin pd ((splitext (osBasename fp)).1 ++ "_" ++ env.timestamp
      ++ (splitext (osBasename fp)).2)) = false)
    (hd : denv.processedExists
      (ospJoin proc (osBasename dir) ++ "_" ++ denv.timestamp) = false) :
    (env.destExists (ospJoin pd (osBasename fp)) = true → env.srcExists = true →
      env.moveRaises = false →
      (move_to_processed fp pd env).dest =
        some (ospJoin pd ((splitext (osBasename fp)).1 ++ "_" ++ env.timestamp
          ++ (splitext (osBasename fp)).2)))
    ∧ (∀ d, (move_to_processed fp pd env).dest = some d → env.destExists d = false)
    ∧ (∀ d, denv.processedExists (ospJoin proc (osBasename dir)) = true →
        (process_directory dir out proc denv).movedTo = some d →
        d = ospJoin proc (osBasename dir) ++ "_" ++ denv.timestamp)
    ∧ (∀ d, (process_directory dir out proc denv).movedTo = some d →
        denv.processedExists d = false) := by
  refine ⟨?_, ?_, ?_, ?_⟩
  · intro hnat hsrc hmv
    simp [move_to_processed, hsrc, hnat, hmv]
  · intro d hdst
    cases hsrc : env.srcExists with
    | false => simp [move_to_processed, hsrc] at hdst
    | true =>
      cases hmv : env.moveRaises with
      | true => simp [move_to_processed, hsrc, hmv] at hdst
      | false =>
        cases hnat : env.destExists (ospJoin pd (osBasename fp)) with
        | true =>
          simp [move_to_processed, hsrc, hmv, hnat] at hdst
          rw [← hdst]
          exact h
        | false =>
          simp [move_to_processed, hsrc, hmv, hnat] at hdst
          rw [← hdst]
          exact hnat
  · intro d hnat hmv
    rcases process_directory_movedTo_cases dir out proc denv with hnone | hsome
    · rw [hnone] at hmv
      exact absurd hmv (by simp)
    · rw [hsome] at hmv
      injection hmv with hda
      subst hda
      simp [archiveDest, hnat]
  · intro d hmv
    rcases process_directory_movedTo_cases dir out proc denv with hnone | hsome
    · rw [hnone] at hmv
      exact absurd hmv (by simp)
    · rw [hsome] at hmv
      injection hmv with hda
      subst hda
      unfold archiveDest
      cases hnat : denv.processedExists (ospJoin proc (osBasename dir)) with
      | true => simp [hnat, hd]
      | false => simp [hnat]

/-- Witness for the amended C3: natural names occupied and suffixed names
free, for a single-file move and for a collection-directory move; each is
directed at the fresh timestamp-suffixed name. -/
theorem claim_C3_witness :
    (move_to_processed "dropbox/talk.mp3" "processed" moveEnvNaturalTaken).dest =
      some (ospJoin "processed" ((splitext (osBasename "dropbox/talk.mp3")).1 ++ "_"
        ++ moveEnvNaturalTaken.timestamp ++ (splitext (osBasename "dropbox/talk.mp3")).2))
    ∧ ("processed/book_20240101_000000" : String) =
        ospJoin "processed" (osBasename "dropbox/book") ++ "_"
          ++ dirEnvArchNatTaken.timestamp :=
  ⟨(claim_C3_collision_safety_amended "dropbox/talk.mp3" "processed" moveEnvNaturalTaken
      "dropbox/book" "output" "processed" dirEnvArchNatTaken (by decide) (by decide)).1
      (by decide) (by decide) (by decide),
    (claim_C3_collision_safety_amended "dropbox/talk.mp3" "processed" moveEnvNaturalTaken
      "dropbox/book" "output" "processed" dirEnvArchNatTaken (by decide) (by decide)).2.2.1
      "processed/book_20240101_000000" (by decide) (by decide)⟩

/-- Claim C4: a single audio file whose derived output artifact already exists is
reported successful with the transcription capability not invoked and the
artifact untouched, and the orchestrator still calls the archival move. -/
theorem claim_C4_idempotent_rerun (db out proc : String) (env : BoxEnv) (item : String)
    (h1 : env.isDirItem item = false) (h2 : is_audio_file item = true)
    (h3 : (env.fileEnv item).sourceExists = true)
    (h4 : (env.fileEnv item).outputExists = true) :
    processItem db out proc env item =
      .audio ⟨true, false, none⟩
        (some (move_to_processed (ospJoin db item) proc (env.moveEnv item))) := by
  simp [processItem, h1, h2, process_audio_file, h3, h4]

/-- Witness for C4: the transcription oracle is an error, so a successful
idempotent step certifies it was never consulted. -/
theorem claim_C4_witness :
    processItem "dropbox" "output" "processed" boxEnvAlreadyDone "talk.mp3" =
      .audio ⟨true, false, none⟩
        (some (move_to_processed (ospJoin "dropbox" "talk.mp3") "processed"
          (boxEnvAlreadyDone.moveEnv "talk.mp3"))) :=
  claim_C4_idempotent_rerun "dropbox" "output" "processed" boxEnvAlreadyDone "talk.mp3"
    (by decide) (by decide) (by decide) (by decide)

/-- Claim C7: a single audio file whose transcription call fails is reported failed
with no output artifact written (not even a partial one) and no archival
move attempted. -/
theorem claim_C7_failure_no_side_effects (db out proc : String) (env : BoxEnv) (item : String)
    (h1 : env.isDirItem item = false) (h2 : is_audio_file item = true)
    (h3 : (env.fileEnv item).sourceExists = true)
    (h4 : (env.fileEnv item).outputExists = false)
    (h5 : (env.fileEnv item).transcribe.isOk = false) :
    processItem db out proc env item = .audio ⟨false, true, none⟩ none := by
  obtain ⟨m, hm⟩ := except_isOk_error h5
  simp [processItem, h1, h2, process_audio_file, h3, h4, hm]

/-- Witness for C7 at a run whose one audio file is unreadable. -/
theorem claim_C7_witness :
    processItem "dropbox" "output" "processed" boxEnvTranscribeFail "talk.mp3" =
      .audio ⟨false, true, none⟩ none :=
  claim_C7_failure_no_side_effects "dropbox" "output" "processed" boxEnvTranscribeFail
    "talk.mp3" (by decide) (by decide) (by decide) (by decide) (by decide)

/-- A per-item step whose single-file archival move does not raise never
raises at all: directory jobs and failed/skipped items handle their own
errors. -/
theorem stepRaises_of_no_moveRaise (db out proc : String) (env : BoxEnv) (item : String)
    (h : (env.moveEnv item).moveRaises = false) :
    stepRaises (processItem db out proc env item) = false := by
  unfold processItem
  by_cases hd : env.isDirItem item
  · simp [hd, stepRaises]
  · by_cases ha : is_audio_file item
    · by_cases hr : (process_audio_file (ospJoin db item) out (env.fileEnv item)).ret
      · cases hsrc : (env.moveEnv item).srcExists with
        | false => simp [hd, ha, hr, stepRaises, move_to_processed, hsrc]
        | true => simp [hd, ha, hr, stepRaises, move_to_processed, hsrc, h]
      · simp [hd, ha, hr, stepRaises]
    · simp [hd, ha, stepRaises]

/-- The drain loop with no raising step processes the whole listing. -/
theorem runItems_no_raise (db out proc : String) (env : BoxEnv) (l : List String)
    (h : ∀ it ∈ l, (env.moveEnv it).moveRaises = false) :
    runItems db out proc env l =
      (l.map (fun it => (it, processItem db out proc env it)), false) := by
  induction l with
  | nil => rfl
  | cons x xs ih =>
    have hx := stepRaises_of_no_moveRaise db out proc env x (h x (by simp))
    have hxs := ih (fun it hit => h it (by simp [hit]))
    simp only [runItems, hx, Bool.false_eq_true, if_false, hxs, List.map_cons]

/-- Claim C2 counterexample: with two single audio files listed, a raised archival
move on the first (its transcription succeeded) aborts the run, so the
second entry is never processed. -/
theorem claim_C2_counterexample :
    (process_dropbox "dropbox" "output" "processed" boxEnvMoveFail).steps.map Prod.fst =
      ["a.mp3"]
    ∧ boxEnvMoveFail.items = ["a.mp3", "b.mp3"]
    ∧ (boxEnvMoveFail.fileEnv "a.mp3").transcribe.isOk = true
    ∧ (boxEnvMoveFail.moveEnv "a.mp3").moveRaises = true := by
  decide

/-- Claim C2, amended: transcription failures and collection failures never abort
the run — as long as no single-file archival move raises, every entry in the
listing is processed and the run ends normally; a raised single-file
archival move, by contrast, aborts the remainder of the listing. -/
theorem claim_C2_failure_isolation_amended (db out proc : String) (env : BoxEnv)
    (h1 : env.dropboxExists = true) (h2 : env.importOk = true)
    (h3 : ∀ it ∈ env.items, (env.moveEnv it).moveRaises = false) :
    (process_dropbox db out proc env).steps.map Prod.fst = env.items
    ∧ (process_dropbox db out proc env).outcome = .normal := by
  cases he : env.items.isEmpty with
  | true =>
    have hnil : env.items = [] := List.isEmpty_iff.mp he
    simp [process_dropbox, h1, h2, he, hnil]
  | false =>
    simp only [process_dropbox, h1, h2, he,
      runItems_no_raise db out proc env env.items h3]
    have hfst : (Prod.fst ∘ fun it => (it, processItem db out proc env it)) = id := rfl
    simp [List.map_map, hfst]

/-- Witness for the amended C2: a run whose entries all fail in their own
way (bad audio, unsupported item, collection with a failing part) still
processes every entry and ends normally. -/
theorem claim_C2_witness :
    (process_dropbox "dropbox" "output" "processed" boxEnvItemFailures).steps.map Prod.fst =
      boxEnvItemFailures.items
    ∧ (process_dropbox "dropbox" "output" "processed" boxEnvItemFailures).outcome = .normal :=
  claim_C2_failure_isolation_amended "dropbox" "output" "processed" boxEnvItemFailures
    (by decide) (by decide) (by decide)

/-- Claim C8 counterexample: with `whisper` importable, a raised single-file
archival move escapes the `except ImportError` handler and terminates the
process with a non-zero status, so item failures can also exit non-zero. -/
theorem claim_C8_counterexample :
    exitCode (process_dropbox "dropbox" "output" "processed" boxEnvExitOnMove) = 1
    ∧ boxEnvExitOnMove.importOk = true := by
  decide

/-- Claim C8, amended: given the drop location exists and no single-file archival
move raises, the process exits non-zero exactly when the transcription
capability cannot be imported; transcription failures alone never produce a
non-zero exit. -/
theorem claim_C8_exit_status_amended (db out proc : String) (env : BoxEnv)
    (h1 : env.dropboxExists = true)
    (h2 : ∀ it ∈ env.items, (env.moveEnv it).moveRaises = false) :
    exitCode (process_dropbox db out proc env) ≠ 0 ↔ env.importOk = false := by
  cases hi : env.importOk with
  | false => simp [process_dropbox, h1, hi, exitCode]
  | true =>
    cases he : env.items.isEmpty with
    | true => simp [process_dropbox, h1, hi, he, exitCode]
    | false =>
      simp only [process_dropbox, h1, hi, he,
        runItems_no_raise db out proc env env.items h2]
      simp [exitCode]

/-- Witness for the amended C8: a run whose only item fails transcription
still exits 0. -/
theorem claim_C8_witness :
    exitCode (process_dropbox "dropbox" "output" "processed" boxEnvTranscribeFail) ≠ 0 ↔
      boxEnvTranscribeFail.importOk = false :=
  claim_C8_exit_status_amended "dropbox" "output" "processed" boxEnvTranscribeFail
    (by decide) (by decide)

end SpeechToText
